import Mathlib

/-!
A shallow embedding of the API gateway's reverse-proxy core:
`src/api_gateway/app/core/proxy.py`, `src/api_gateway/app/core/config.py`
and `src/api_gateway/app/main.py`.

Python strings are modelled as lists of characters (`Str`), Python dicts as
association lists with unique keys that keep insertion order, and request
bodies as lists of bytes.  Network effects are modelled by passing the
outcome of each outbound attempt in as data (`AttemptResult`,
`HealthOutcome`); everything the code computes from those outcomes is
embedded faithfully.
-/

namespace Gateway

/-- Python strings: sequences of code points. -/
abbrev Str := List Char

/-- Python `s.startswith(pre)`. -/
def startswith (s pre : Str) : Bool := List.isPrefixOf pre s

/-- Python `s.rstrip('/')`: remove every trailing `'/'`. -/
def rstrip_slash (s : Str) : Str :=
  (List.dropWhile (fun c => c == '/') s.reverse).reverse

/-- ASCII lower-casing of a header name, as the ASGI server applies it
(Python `str.lower` on ASCII header names; `Char.toLower` only affects
basic latin letters, which is the behaviour for HTTP header names). -/
def lowerStr (s : Str) : Str := s.map Char.toLower

/-- One entry of `settings.service_routes` in config.py: the upstream base
url, the path prefix (the dict key `"prefix"`) and the description. -/
structure RouteConfig where
  url : Str
  route_prefix : Str
  description : Str
deriving DecidableEq

/-- `settings.service_routes` from config.py under the default environment:
an insertion-ordered mapping from service name to route configuration. -/
def service_routes : List (Str × RouteConfig) :=
  [("auth".data,
     ⟨"http://auth_service:8000".data, "/auth".data, "Authentication Service".data⟩),
   ("tasks".data,
     ⟨"http://task_service:8000".data, "/api/v1/tasks".data, "Task Management Service".data⟩),
   ("notifications".data,
     ⟨"http://notification_service:8000".data, "/api/v1/notifications".data, "Notification Service".data⟩)]

/-- `settings.service_version` (default environment). -/
def service_version : Str := "1.0.0".data

/-- `ServiceProxy.get_service_url` (proxy.py lines 42-63): iterate the
configured routes in declaration order; the first route whose prefix is a
literal prefix of the path wins; the prefix is stripped and a leading `'/'`
is prepended when the remainder does not start with one.  The Python
`return None, None` is modelled as `none`. -/
def get_service_url (routes : List (Str × RouteConfig)) (path : Str) :
    Option (Str × Str) :=
  match routes with
  | [] => none
  | (_, ⟨url, pre, _⟩) :: rest =>
    if startswith path pre then
      let cleaned_path := path.drop pre.length
      some (url,
        if startswith cleaned_path "/".data then cleaned_path else '/' :: cleaned_path)
    else get_service_url rest path

/-- A Python dict over string keys and values, as an insertion-ordered
association list with unique keys. -/
abbrev HeaderDict := List (Str × Str)

/-- Python dict assignment `d[k] = v`: update in place when the key exists
(keeping its position), otherwise append. -/
def dictInsert (k v : Str) : HeaderDict → HeaderDict
  | [] => [(k, v)]
  | (k', v') :: rest =>
    if k' = k then (k, v) :: rest else (k', v') :: dictInsert k v rest

/-- Python `d.pop(k, None)`: drop the entry stored under `k`, if any. -/
def dictPop (k : Str) (d : HeaderDict) : HeaderDict :=
  d.filter (fun p => p.1 != k)

/-- Python `d.get(k)`: the value stored under `k`, if any. -/
def dictGet (k : Str) (d : HeaderDict) : Option Str :=
  (d.find? (fun p => p.1 == k)).map (fun p => p.2)

/-- `dict(request.headers)` in prepare_headers: the ASGI server hands header
names over lowercased (the ASGI spec requires it, and Starlette keeps them
that way), so the dict the Python code sees maps each lowercased wire name
to the last value sent under it.  `raw` is the wire header list with its
original casing. -/
def headersDict (raw : HeaderDict) : HeaderDict :=
  raw.foldl (fun d p => dictInsert (lowerStr p.1) p.2 d) []

/-- The hop-by-hop request header names removed by prepare_headers
(proxy.py lines 79-83).  The Python set literal is modelled as a list; the
removals commute, so the iteration order does not matter. -/
def hop_by_hop_headers : List Str :=
  ["connection", "keep-alive", "proxy-authenticate", "proxy-authorization",
   "te", "trailers", "transfer-encoding", "upgrade", "host"].map String.data

/-- `ServiceProxy.prepare_headers` (proxy.py lines 65-97). `client_ip` is
`request.client.host` (or the string `"unknown"`). -/
def prepare_headers (raw : HeaderDict) (client_ip : Str) : HeaderDict :=
  let headers := headersDict raw
  let headers := hop_by_hop_headers.foldl (fun d k => dictPop k d) headers
  let headers := dictInsert "X-Forwarded-By".data "API-Gateway".data headers
  let headers := dictInsert "X-Gateway-Version".data service_version headers
  let headers := dictInsert "X-Forwarded-For".data
    ((dictGet "X-Forwarded-For".data headers).getD client_ip) headers
  let headers := dictInsert "X-Real-IP".data client_ip headers
  headers

/-- An HTTP response as handed back by the transport for one successful
outbound attempt: status code, wire headers and body bytes. -/
structure UpstreamResponse where
  status_code : Nat
  headers : HeaderDict
  content : List Nat
deriving DecidableEq

/-- The response headers popped before returning to the client
(proxy.py line 167). -/
def response_strip_headers : List Str :=
  ["connection", "transfer-encoding", "content-encoding"].map String.data

/-- The FastAPI `Response` the gateway returns to its client. -/
structure GatewayResponse where
  content : List Nat
  status_code : Nat
  headers : HeaderDict
  media_type : Option Str
deriving DecidableEq

/-- The `Response` construction on a successful attempt (proxy.py lines
163-180): the httpx response header dict (httpx also stores header names
lowercased) with connection, transfer-encoding and content-encoding removed
and the two gateway metadata headers added; the status code and body are
taken over unchanged.  `duration` stands for the wall-clock string. -/
def build_response (resp : UpstreamResponse) (service_url : Str)
    (duration : Str) : GatewayResponse :=
  let response_headers := headersDict resp.headers
  let response_headers :=
    response_strip_headers.foldl (fun d k => dictPop k d) response_headers
  let response_headers :=
    dictInsert "X-Gateway-Service".data service_url response_headers
  let response_headers :=
    dictInsert "X-Gateway-Duration".data duration response_headers
  ⟨resp.content, resp.status_code, response_headers,
   dictGet "content-type".data (headersDict resp.headers)⟩

/-- The transport-level outcome of one outbound attempt, matching the
except-clauses of the retry loop: a response with any status code, an
`httpx.TimeoutException`, an `httpx.ConnectError`, or any other exception. -/
inductive AttemptResult where
  | success (resp : UpstreamResponse)
  | timeout
  | connectError
  | otherError
deriving DecidableEq

/-- A raised `HTTPException`: status code and detail message. -/
structure GatewayError where
  status_code : Nat
  detail : Str
deriving DecidableEq

/-- What forwarding produces: a response, or a raised `HTTPException`. -/
inductive ForwardResult where
  | ok (resp : GatewayResponse)
  | error (e : GatewayError)
deriving DecidableEq

/-- Whether an attempt outcome is a transport-level failure (one of the
three except-clauses) rather than an arrived response. -/
def is_transport_failure : AttemptResult → Bool
  | AttemptResult.success _ => false
  | _ => true

/-- The spec's classification of a transport failure kind to a gateway
status (spec section 7 / 4.3): timeout 504, connection error 503, any other
transport exception 500. -/
def failure_status : AttemptResult → Nat
  | AttemptResult.timeout => 504
  | AttemptResult.connectError => 503
  | _ => 500

/-- The `HTTPException` raised when the retry budget is exhausted on a given
failure kind (proxy.py lines 182-204). -/
def classify_error (service_url : Str) : AttemptResult → GatewayError
  | AttemptResult.timeout => ⟨504, "Service timeout: ".data ++ service_url⟩
  | AttemptResult.connectError => ⟨503, "Service unavailable: ".data ++ service_url⟩
  | _ => ⟨500, "Gateway error occurred".data⟩

/-- The retry loop of `ServiceProxy.forward_request` (proxy.py lines
146-210).  `attempts i` is the transport outcome of the i-th outbound call
(0-based); the result is paired with the number of attempts performed.  An
exception on the last admissible attempt (`attempt == max_retries - 1`)
raises the classified `HTTPException`; earlier exceptions fall through to
the next iteration.  Falling out of the loop without returning raises the
final 500 "Request forwarding failed". -/
def forward_attempts (max_retries : Nat) (service_url : Str)
    (attempts : Nat → AttemptResult) (duration : Str) (attempt : Nat) :
    ForwardResult × Nat :=
  if _h : attempt < max_retries then
    match attempts attempt with
    | AttemptResult.success resp =>
      (ForwardResult.ok (build_response resp service_url duration), attempt + 1)
    | AttemptResult.timeout =>
      if attempt = max_retries - 1 then
        (ForwardResult.error ⟨504, "Service timeout: ".data ++ service_url⟩, attempt + 1)
      else forward_attempts max_retries service_url attempts duration (attempt + 1)
    | AttemptResult.connectError =>
      if attempt = max_retries - 1 then
        (ForwardResult.error ⟨503, "Service unavailable: ".data ++ service_url⟩, attempt + 1)
      else forward_attempts max_retries service_url attempts duration (attempt + 1)
    | AttemptResult.otherError =>
      if attempt = max_retries - 1 then
        (ForwardResult.error ⟨500, "Gateway error occurred".data⟩, attempt + 1)
      else forward_attempts max_retries service_url attempts duration (attempt + 1)
  else
    (ForwardResult.error ⟨500, "Request forwarding failed".data⟩, attempt)
termination_by max_retries - attempt

/-- The outbound URL (proxy.py lines 129-131):
`service_url.rstrip('/') + cleaned_path`, with `"?" + query` appended
exactly when the query string is non-empty. -/
def outbound_url (service_url cleaned_path query : Str) : Str :=
  rstrip_slash service_url ++ cleaned_path ++
    (if query = [] then [] else '?' :: query)

/-- `ServiceProxy.forward_request` (proxy.py lines 99-210) restricted to
what decides routing and the retry loop: resolve the route, raise the 404
`HTTPException` before any outbound call when nothing matched (the Python
`if not service_url` is true both for `None` and for an empty url string),
otherwise run the retry loop.  Header preparation, URL building and body
reading do not influence this result and are modelled by the stand-alone
functions `prepare_headers` and `outbound_url`. -/
def forward_request (routes : List (Str × RouteConfig)) (path : Str)
    (max_retries : Nat) (attempts : Nat → AttemptResult) (duration : Str) :
    ForwardResult × Nat :=
  match get_service_url routes path with
  | none =>
    (ForwardResult.error ⟨404, "No service found for path: ".data ++ path⟩, 0)
  | some (service_url, _) =>
    if service_url = [] then
      (ForwardResult.error ⟨404, "No service found for path: ".data ++ path⟩, 0)
    else forward_attempts max_retries service_url attempts duration 0

/-- The JSON error body built by `http_exception_handler` in main.py
(lines 73-88); the wall-clock `timestamp` field is omitted. -/
structure ErrorBody where
  type : Str
  status_code : Nat
  message : Str
  path : Str
  gateway : Str
deriving DecidableEq

/-- `http_exception_handler` (main.py lines 73-88): the response status code
and the structured JSON body produced for a raised `HTTPException`. -/
def http_exception_handler (path : Str) (exc : GatewayError) : Nat × ErrorBody :=
  (exc.status_code,
   ⟨"gateway_error".data, exc.status_code, exc.detail, path,
    "task_manager_api_gateway".data⟩)

/-- The outcome of one `GET {url}/health` probe: an HTTP response (any
status) with its elapsed-seconds string, or a raised exception message. -/
inductive HealthOutcome where
  | response (status_code : Nat) (elapsed : Str)
  | exception (message : Str)
deriving DecidableEq

/-- The per-service health dict built by `health_check_service`. -/
structure HealthRecord where
  url : Str
  status : Str
  status_code : Option Nat
  response_time : Option Str
  error : Option Str
deriving DecidableEq

/-- `ServiceProxy.health_check_service` (proxy.py lines 212-239): a 200
response yields status "healthy", any other status code "unhealthy", and
any exception "unhealthy" with the exception message as the error field. -/
def health_check_service (service_url : Str) (outcome : HealthOutcome) :
    HealthRecord :=
  match outcome with
  | HealthOutcome.response code elapsed =>
    ⟨service_url, if code == 200 then "healthy".data else "unhealthy".data,
     some code, some elapsed, none⟩
  | HealthOutcome.exception msg =>
    ⟨service_url, "unhealthy".data, none, none, some msg⟩

/-- The aggregate `/health` report: the per-service breakdown in route
order, and the overall status string. -/
structure HealthStatus where
  downstream_services : List (Str × HealthRecord)
  overall_status : Str
deriving DecidableEq

/-- One iteration of the loop in `health_check` (main.py lines 144-151):
record the service's health and degrade the overall status when the entry
is not healthy. -/
def health_step (outcomes : Str → HealthOutcome) (st : HealthStatus)
    (entry : Str × RouteConfig) : HealthStatus :=
  let record := health_check_service entry.2.url (outcomes entry.1)
  ⟨st.downstream_services ++ [(entry.1, record)],
   if record.status ≠ "healthy".data then "degraded".data else st.overall_status⟩

/-- The `/health` endpoint (main.py lines 127-160): check every configured
route, starting from an empty breakdown and overall status "healthy".
`outcomes` gives each probe's outcome by service name. -/
def health_check (routes : List (Str × RouteConfig))
    (outcomes : Str → HealthOutcome) : HealthStatus :=
  routes.foldl (health_step outcomes) ⟨[], "healthy".data⟩

/-- The downstream path the spec predicts (spec section 4.1, claim C1): the
matched prefix stripped from the path, with a leading `'/'` inserted when
the remainder is empty or does not begin with `'/'`. -/
def spec_downstream (path pre : Str) : Str :=
  let r := path.drop pre.length
  if r = [] ∨ r.head? ≠ some '/' then '/' :: r else r

/-- The one-route table of C8's first end-to-end example. -/
def c8_auth_routes : List (Str × RouteConfig) :=
  [("auth".data, ⟨"http://auth:8000".data, "/auth".data, []⟩)]

/-- The one-route table of C8's second end-to-end example. -/
def c8_task_routes : List (Str × RouteConfig) :=
  [("tasks".data, ⟨"http://tasks:8000".data, "/api/v1/tasks".data, []⟩)]

/-- A concrete health scenario: the task service probe raises a connection
error, the other probes answer 200. -/
def c9_outcomes : Str → HealthOutcome :=
  fun name =>
    if name = "tasks".data then
      HealthOutcome.exception "All connection attempts failed".data
    else HealthOutcome.response 200 []

/-!  ## Helper lemmas  -/

/-- `Char.toLower` sends the image of an upper-case basic latin letter to
itself. -/
theorem char_toLower_shifted (n : Nat) (h1 : 65 ≤ n) (h2 : n ≤ 90) :
    Char.toLower (Char.ofNat (n + 32)) = Char.ofNat (n + 32) := by
  interval_cases n <;> decide

/-- `Char.toLower` is idempotent. -/
theorem char_toLower_idem (c : Char) : c.toLower.toLower = c.toLower := by
  by_cases h : 65 ≤ c.toNat ∧ c.toNat ≤ 90
  · have he : c.toLower = Char.ofNat (c.toNat + 32) := by
      simp only [Char.toLower]
      rw [if_pos]
      exact ⟨h.1, h.2⟩
    rw [he]
    exact char_toLower_shifted c.toNat h.1 h.2
  · have he : c.toLower = c := by
      simp only [Char.toLower]
      rw [if_neg]
      exact h
    rw [he]
    exact he

/-- `lowerStr` is idempotent. -/
theorem lowerStr_idem (s : Str) : lowerStr (lowerStr s) = lowerStr s := by
  induction s with
  | nil => rfl
  | cons c t ih =>
    simp only [lowerStr, List.map_cons] at ih ⊢
    rw [char_toLower_idem]
    exact congrArg (List.cons c.toLower) ih

/-- Membership after a Python dict assignment. -/
theorem mem_dictInsert {k v : Str} {d : HeaderDict} {p : Str × Str}
    (h : p ∈ dictInsert k v d) : p = (k, v) ∨ p ∈ d := by
  induction d with
  | nil => simpa [dictInsert] using h
  | cons q rest ih =>
    obtain ⟨k', v'⟩ := q
    simp only [dictInsert] at h
    split at h
    · rcases List.mem_cons.mp h with h | h
      · exact Or.inl h
      · exact Or.inr (List.mem_cons_of_mem _ h)
    · rcases List.mem_cons.mp h with h | h
      · exact Or.inr (h ▸ List.mem_cons_self _ _)
      · rcases ih h with h | h
        · exact Or.inl h
        · exact Or.inr (List.mem_cons_of_mem _ h)

/-- Membership after a Python dict pop. -/
theorem mem_dictPop {k : Str} {d : HeaderDict} {p : Str × Str}
    (h : p ∈ dictPop k d) : p ∈ d ∧ p.1 ≠ k := by
  have hm := List.mem_filter.mp h
  refine ⟨hm.1, ?_⟩
  intro he
  have h2 := hm.2
  rw [he] at h2
  simp at h2

/-- Membership after popping every key of a list. -/
theorem mem_popAll {ks : List Str} {d : HeaderDict} {p : Str × Str}
    (h : p ∈ ks.foldl (fun acc k => dictPop k acc) d) :
    p ∈ d ∧ ∀ k ∈ ks, p.1 ≠ k := by
  induction ks generalizing d with
  | nil => exact ⟨h, by simp⟩
  | cons k rest ih =>
    rw [List.foldl_cons] at h
    obtain ⟨hmem, hrest⟩ := ih h
    obtain ⟨hd, hne⟩ := mem_dictPop hmem
    refine ⟨hd, ?_⟩
    intro x hx
    rcases List.mem_cons.mp hx with rfl | hx
    · exact hne
    · exact hrest x hx

/-- Every key of the dict built from the wire headers is a lowercased wire
name. -/
theorem mem_foldl_insert {raw : HeaderDict} {acc : HeaderDict} {p : Str × Str}
    (h : p ∈ raw.foldl (fun d q => dictInsert (lowerStr q.1) q.2 d) acc) :
    p ∈ acc ∨ ∃ q, q ∈ raw ∧ p.1 = lowerStr q.1 := by
  induction raw generalizing acc with
  | nil => exact Or.inl h
  | cons q rest ih =>
    rw [List.foldl_cons] at h
    rcases ih h with h | ⟨r, hr, he⟩
    · rcases mem_dictInsert h with h | h
      · exact Or.inr ⟨q, List.mem_cons_self _ _, by rw [h]⟩
      · exact Or.inl h
    · exact Or.inr ⟨r, List.mem_cons_of_mem _ hr, he⟩

/-- Every key of `headersDict raw` is a lowercased wire name. -/
theorem mem_headersDict {raw : HeaderDict} {p : Str × Str}
    (h : p ∈ headersDict raw) : ∃ q, q ∈ raw ∧ p.1 = lowerStr q.1 := by
  rcases mem_foldl_insert h with h | h
  · cases h
  · exact h

/-- When no route's prefix matches, `get_service_url` returns `none`. -/
theorem get_service_url_eq_none {routes : List (Str × RouteConfig)} {path : Str}
    (h : ∀ e ∈ routes, startswith path (RouteConfig.route_prefix e.2) = false) :
    get_service_url routes path = none := by
  induction routes with
  | nil => rfl
  | cons e rest ih =>
    obtain ⟨nm, ⟨url, pre, desc⟩⟩ := e
    have h0 : startswith path pre = false :=
      h (nm, ⟨url, pre, desc⟩) (List.mem_cons_self _ _)
    simp only [get_service_url]
    rw [if_neg (by simp [h0])]
    exact ih (fun e he => h e (List.mem_cons_of_mem _ he))

/-- The code's leading-slash insertion agrees with the spec's description
of the downstream path. -/
theorem cleaned_eq_spec_downstream (path pre : Str) :
    (if startswith (path.drop pre.length) "/".data then path.drop pre.length
     else '/' :: path.drop pre.length) = spec_downstream path pre := by
  simp only [spec_downstream]
  cases hr : path.drop pre.length with
  | nil => simp [startswith, List.isPrefixOf]
  | cons c t =>
    by_cases hc : c = '/'
    · subst hc
      simp [startswith, List.isPrefixOf]
    · have hc2 : ¬ '/' = c := fun hh => hc hh.symm
      simp [startswith, List.isPrefixOf, hc, hc2]

/-- The spec's downstream path always starts with a slash. -/
theorem spec_downstream_slash (path pre : Str) :
    startswith (spec_downstream path pre) "/".data = true := by
  simp only [spec_downstream]
  cases hr : path.drop pre.length with
  | nil => simp [startswith, List.isPrefixOf]
  | cons c t =>
    by_cases hc : c = '/'
    · subst hc
      simp [startswith, List.isPrefixOf]
    · have hc2 : ¬ '/' = c := fun hh => hc hh.symm
      simp [startswith, List.isPrefixOf, hc, hc2]

/-- When every attempt from `k` on fails at transport level, the retry loop
runs to the last attempt and raises the error classified from it. -/
theorem forward_attempts_all_fail (max_retries : Nat) (service_url : Str)
    (attempts : Nat → AttemptResult) (duration : Str) :
    ∀ fuel k, max_retries - k = fuel → k < max_retries →
      (∀ i, k ≤ i → i < max_retries → is_transport_failure (attempts i) = true) →
      forward_attempts max_retries service_url attempts duration k =
        (ForwardResult.error (classify_error service_url (attempts (max_retries - 1))),
         max_retries) := by
  intro fuel
  induction fuel with
  | zero =>
    intro k hf hk _
    omega
  | succ n ih =>
    intro k hf hk hfail
    rw [forward_attempts, dif_pos hk]
    split
    · rename_i resp heq
      have hbad := hfail k le_rfl hk
      rw [heq] at hbad
      simp [is_transport_failure] at hbad
    · rename_i heq
      by_cases hl : k = max_retries - 1
      · subst hl
        rw [if_pos rfl, heq]
        have hmr : max_retries - 1 + 1 = max_retries := by omega
        rw [hmr]
        rfl
      · rw [if_neg hl]
        exact ih (k + 1) (by omega) (by omega) (fun i h1 h2 => hfail i (by omega) h2)
    · rename_i heq
      by_cases hl : k = max_retries - 1
      · subst hl
        rw [if_pos rfl, heq]
        have hmr : max_retries - 1 + 1 = max_retries := by omega
        rw [hmr]
        rfl
      · rw [if_neg hl]
        exact ih (k + 1) (by omega) (by omega) (fun i h1 h2 => hfail i (by omega) h2)
    · rename_i heq
      by_cases hl : k = max_retries - 1
      · subst hl
        rw [if_pos rfl, heq]
        have hmr : max_retries - 1 + 1 = max_retries := by omega
        rw [hmr]
        rfl
      · rw [if_neg hl]
        exact ih (k + 1) (by omega) (by omega) (fun i h1 h2 => hfail i (by omega) h2)

/-- The `/health` fold reports every route's record, in route order. -/
theorem health_fold_services (outcomes : Str → HealthOutcome) :
    ∀ (routes : List (Str × RouteConfig)) (st : HealthStatus),
      (routes.foldl (health_step outcomes) st).downstream_services =
        st.downstream_services ++
          routes.map (fun e => (e.1, health_check_service e.2.url (outcomes e.1))) := by
  intro routes
  induction routes with
  | nil => simp
  | cons e rest ih =>
    intro st
    rw [List.foldl_cons, ih]
    simp [health_step, List.append_assoc]

/-- The `/health` fold's overall status is degraded exactly when some
route's record is not healthy. -/
theorem health_fold_overall (outcomes : Str → HealthOutcome) :
    ∀ (routes : List (Str × RouteConfig)) (st : HealthStatus),
      (routes.foldl (health_step outcomes) st).overall_status =
        if routes.any
            (fun e => (health_check_service e.2.url (outcomes e.1)).status != "healthy".data)
        then "degraded".data else st.overall_status := by
  intro routes
  induction routes with
  | nil => simp
  | cons e rest ih =>
    intro st
    rw [List.foldl_cons, ih]
    have hstep : (health_step outcomes st e).overall_status =
        if (health_check_service e.2.url (outcomes e.1)).status ≠ "healthy".data
        then "degraded".data else st.overall_status := rfl
    rw [hstep]
    simp only [List.any_cons]
    by_cases h : (health_check_service e.2.url (outcomes e.1)).status = "healthy".data
    · have hfe : ((health_check_service e.2.url (outcomes e.1)).status !=
          "healthy".data) = false := by simp [h]
      rw [if_neg (not_ne_iff.mpr h), hfe, Bool.false_or]
    · have hfe : ((health_check_service e.2.url (outcomes e.1)).status !=
          "healthy".data) = true := by simp [h]
      rw [if_pos h, hfe, Bool.true_or, ite_self, if_pos rfl]

/-- The first route (in declaration order) whose prefix literally matches
the path determines `get_service_url`'s result, and the downstream path is
the spec's predicted one. -/
theorem get_service_url_first_match :
    ∀ (routes : List (Str × RouteConfig)) (path : Str) (i : Nat)
      (nm url pre desc : Str),
      routes[i]? = some (nm, ⟨url, pre, desc⟩) →
      startswith path pre = true →
      (∀ j, j < i → ∀ e, routes[j]? = some e →
        startswith path (RouteConfig.route_prefix e.2) = false) →
      get_service_url routes path = some (url, spec_downstream path pre) := by
  intro routes
  induction routes with
  | nil =>
    intro path i nm url pre desc hi
    simp at hi
  | cons e rest ih =>
    intro path i nm url pre desc hi hmatch hfirst
    obtain ⟨nm', ⟨url', pre', desc'⟩⟩ := e
    cases i with
    | zero =>
      simp only [List.getElem?_cons_zero, Option.some.injEq, Prod.mk.injEq,
        RouteConfig.mk.injEq] at hi
      obtain ⟨h1, h2, h3, h4⟩ := hi
      rw [h2, h3]
      simp only [get_service_url]
      rw [if_pos hmatch, cleaned_eq_spec_downstream path pre]
    | succ j =>
      simp only [List.getElem?_cons_succ] at hi
      have h0 : startswith path pre' = false := by
        have h := hfirst 0 (Nat.succ_pos j) (nm', ⟨url', pre', desc'⟩) (by simp)
        exact h
      simp only [get_service_url]
      rw [if_neg (by simp [h0])]
      refine ih path j nm url pre desc hi hmatch ?_
      intro j' hj' e' he'
      exact hfirst (j' + 1) (Nat.succ_lt_succ hj') e' (by simpa using he')

/-!  ## The claims  -/

/-- C1: for every configured route R and path P starting with R's prefix,
where the routes before R (in declaration order) do not match, resolve
returns R's upstream base url paired with P stripped of the prefix and
given a guaranteed leading '/' (inserted exactly when the remainder is
empty or does not begin with '/'), so the downstream path always starts
with '/'. -/
theorem C1_resolve_first_match (routes : List (Str × RouteConfig)) (path : Str)
    (i : Nat) (nm url pre desc : Str)
    (hi : routes[i]? = some (nm, ⟨url, pre, desc⟩))
    (hmatch : startswith path pre = true)
    (hfirst : ∀ j, j < i → ∀ e, routes[j]? = some e →
      startswith path (RouteConfig.route_prefix e.2) = false) :
    get_service_url routes path = some (url, spec_downstream path pre) ∧
    startswith (spec_downstream path pre) "/".data = true :=
  ⟨get_service_url_first_match routes path i nm url pre desc hi hmatch hfirst,
   spec_downstream_slash path pre⟩

/-- C1 witness: the auth route resolves /auth/login. -/
theorem C1_resolve_first_match_witness :
    get_service_url service_routes "/auth/login".data =
      some ("http://auth_service:8000".data,
        spec_downstream "/auth/login".data "/auth".data) ∧
    startswith (spec_downstream "/auth/login".data "/auth".data) "/".data = true :=
  C1_resolve_first_match service_routes "/auth/login".data 0 "auth".data
    "http://auth_service:8000".data "/auth".data "Authentication Service".data
    (by rfl) (by decide)
    (fun j hj => absurd hj (Nat.not_lt_zero j))

/-- C2: when every outbound attempt raises a transport-level failure, the
forward loop performs exactly max_retries attempts and raises the error
classified from the last attempt's failure kind: timeout 504, connection
error 503, any other transport exception 500. -/
theorem C2_retry_exhaustion (max_retries : Nat) (service_url : Str)
    (attempts : Nat → AttemptResult) (duration : Str)
    (hpos : 0 < max_retries)
    (hfail : ∀ i, i < max_retries → is_transport_failure (attempts i) = true) :
    forward_attempts max_retries service_url attempts duration 0 =
      (ForwardResult.error (classify_error service_url (attempts (max_retries - 1))),
       max_retries) ∧
    (classify_error service_url (attempts (max_retries - 1))).status_code =
      failure_status (attempts (max_retries - 1)) := by
  constructor
  · exact forward_attempts_all_fail max_retries service_url attempts duration
      max_retries 0 (by omega) hpos (fun i _ h2 => hfail i h2)
  · cases attempts (max_retries - 1) <;> rfl

/-- C2 witness: three connection errors in a row give three attempts and a
503 with the unavailable detail. -/
theorem C2_retry_exhaustion_witness :
    forward_attempts 3 "http://auth_service:8000".data
      (fun _ => AttemptResult.connectError) [] 0 =
      (ForwardResult.error
        ⟨503, "Service unavailable: http://auth_service:8000".data⟩, 3) := by
  have h := C2_retry_exhaustion 3 "http://auth_service:8000".data
    (fun _ => AttemptResult.connectError) [] (by decide) (fun i _ => rfl)
  exact h.1.trans (by decide)

/-- C3: when the first attempt yields an HTTP response (any status code),
the forward returns after exactly that one attempt and the returned
response preserves the upstream status code and body exactly. -/
theorem C3_pass_through (max_retries : Nat) (service_url : Str)
    (attempts : Nat → AttemptResult) (duration : Str) (resp : UpstreamResponse)
    (hpos : 0 < max_retries)
    (h0 : attempts 0 = AttemptResult.success resp) :
    forward_attempts max_retries service_url attempts duration 0 =
      (ForwardResult.ok (build_response resp service_url duration), 1) ∧
    (build_response resp service_url duration).status_code = resp.status_code ∧
    (build_response resp service_url duration).content = resp.content := by
  refine ⟨?_, rfl, rfl⟩
  rw [forward_attempts, dif_pos hpos, h0]

/-- C3 witness: an upstream 500 with a body is passed through on the first
of three admissible attempts. -/
theorem C3_pass_through_witness :
    forward_attempts 3 "http://auth_service:8000".data
      (fun _ => AttemptResult.success ⟨500, [], [104, 105]⟩) [] 0 =
      (ForwardResult.ok
        (build_response ⟨500, [], [104, 105]⟩ "http://auth_service:8000".data []), 1) ∧
    (build_response ⟨500, [], [104, 105]⟩ "http://auth_service:8000".data
      []).status_code = 500 ∧
    (build_response ⟨500, [], [104, 105]⟩ "http://auth_service:8000".data
      []).content = [104, 105] :=
  C3_pass_through 3 "http://auth_service:8000".data
    (fun _ => AttemptResult.success ⟨500, [], [104, 105]⟩) [] ⟨500, [], [104, 105]⟩
    (by decide) rfl

/-- C4: when no configured prefix matches the path, resolution yields no
match, forwarding performs zero outbound attempts and raises 404, and the
exception handler renders status 404 with error type "gateway_error". -/
theorem C4_route_not_found (routes : List (Str × RouteConfig)) (path : Str)
    (max_retries : Nat) (attempts : Nat → AttemptResult) (duration : Str)
    (hnomatch : ∀ e ∈ routes, startswith path (RouteConfig.route_prefix e.2) = false) :
    get_service_url routes path = none ∧
    forward_request routes path max_retries attempts duration =
      (ForwardResult.error ⟨404, "No service found for path: ".data ++ path⟩, 0) ∧
    (http_exception_handler path
      ⟨404, "No service found for path: ".data ++ path⟩).1 = 404 ∧
    (http_exception_handler path
      ⟨404, "No service found for path: ".data ++ path⟩).2.type =
        "gateway_error".data := by
  have hn := get_service_url_eq_none hnomatch
  refine ⟨hn, ?_, rfl, rfl⟩
  rw [forward_request, hn]

/-- C4 witness: /unknown matches no route of the configured table. -/
theorem C4_route_not_found_witness :
    get_service_url service_routes "/unknown".data = none ∧
    forward_request service_routes "/unknown".data 3
      (fun _ => AttemptResult.timeout) [] =
      (ForwardResult.error
        ⟨404, "No service found for path: ".data ++ "/unknown".data⟩, 0) ∧
    (http_exception_handler "/unknown".data
      ⟨404, "No service found for path: ".data ++ "/unknown".data⟩).1 = 404 ∧
    (http_exception_handler "/unknown".data
      ⟨404, "No service found for path: ".data ++ "/unknown".data⟩).2.type =
        "gateway_error".data :=
  C4_route_not_found service_routes "/unknown".data 3
    (fun _ => AttemptResult.timeout) [] (by decide)

/-- C5: for every inbound wire header set and client address, the sanitized
outbound header set contains no hop-by-hop header under any casing: the
lowercase form of every outbound header name is outside the removal set. -/
theorem C5_hop_by_hop_removed (raw : HeaderDict) (client_ip : Str) :
    ∀ p ∈ prepare_headers raw client_ip, lowerStr p.1 ∉ hop_by_hop_headers := by
  intro p hp
  simp only [prepare_headers] at hp
  rcases mem_dictInsert hp with h | hp
  · have hkey : p.1 = "X-Real-IP".data := by rw [h]
    rw [hkey]
    decide
  rcases mem_dictInsert hp with h | hp
  · have hkey : p.1 = "X-Forwarded-For".data := by rw [h]
    rw [hkey]
    decide
  rcases mem_dictInsert hp with h | hp
  · have hkey : p.1 = "X-Gateway-Version".data := by rw [h]
    rw [hkey]
    decide
  rcases mem_dictInsert hp with h | hp
  · have hkey : p.1 = "X-Forwarded-By".data := by rw [h]
    rw [hkey]
    decide
  obtain ⟨hmem, hnot⟩ := mem_popAll hp
  obtain ⟨q, hq, hkey⟩ := mem_headersDict hmem
  intro hlow
  have hfix : lowerStr p.1 = p.1 := by
    rw [hkey]
    exact lowerStr_idem q.1
  rw [hfix] at hlow
  exact hnot p.1 hlow rfl

/-- C5 witness: a request carrying a mixed-case Connection header yields a
sanitized set whose X-Forwarded-By entry (like every entry) is no
hop-by-hop header. -/
theorem C5_hop_by_hop_removed_witness :
    lowerStr "X-Forwarded-By".data ∉ hop_by_hop_headers :=
  C5_hop_by_hop_removed [("Connection".data, "keep-alive".data)] "1.2.3.4".data
    ("X-Forwarded-By".data, "API-Gateway".data) (by decide)

/-- C6: evaluation at the failing input.  The inbound request supplies
X-Real-IP "6.6.6.6" (lowercased to "x-real-ip" by the ASGI server) and the
client address is "9.9.9.9": the sanitized outbound set keeps the
client-supplied value under the lowercase key while the gateway adds its
own mixed-case X-Real-IP entry, so the client-supplied value survives
alongside the gateway's. -/
theorem C6_real_ip_survives_eval :
    prepare_headers [("X-Real-IP".data, "6.6.6.6".data)] "9.9.9.9".data =
      [("x-real-ip".data, "6.6.6.6".data),
       ("X-Forwarded-By".data, "API-Gateway".data),
       ("X-Gateway-Version".data, "1.0.0".data),
       ("X-Forwarded-For".data, "9.9.9.9".data),
       ("X-Real-IP".data, "9.9.9.9".data)] := by
  decide

/-- C7: evaluation at the failing input.  The inbound request carries
X-Forwarded-For "1.1.1.1" (stored under the lowercase key), but the
case-sensitive dict lookup misses it, so the gateway sets its own
X-Forwarded-For to the client address "2.2.2.2": the inbound value is not
preserved under the key the gateway writes, and the outbound set carries
two conflicting X-Forwarded-For entries. -/
theorem C7_forwarded_for_not_preserved_eval :
    prepare_headers [("X-Forwarded-For".data, "1.1.1.1".data)] "2.2.2.2".data =
      [("x-forwarded-for".data, "1.1.1.1".data),
       ("X-Forwarded-By".data, "API-Gateway".data),
       ("X-Gateway-Version".data, "1.0.0".data),
       ("X-Forwarded-For".data, "2.2.2.2".data),
       ("X-Real-IP".data, "2.2.2.2".data)] ∧
    dictGet "X-Forwarded-For".data
      (prepare_headers [("X-Forwarded-For".data, "1.1.1.1".data)] "2.2.2.2".data) =
      some "2.2.2.2".data := by
  constructor
  · decide
  · decide

/-- C8: the outbound URL is the upstream base url stripped of trailing
slashes, concatenated with the downstream path, with "?" and the query
appended exactly when the query is non-empty; and the two end-to-end
examples forward to http://auth:8000/login and http://tasks:8000/5?x=1. -/
theorem C8_outbound_url_shape :
    (∀ u c q, q ≠ [] → outbound_url u c q = rstrip_slash u ++ c ++ '?' :: q) ∧
    (∀ u c, outbound_url u c [] = rstrip_slash u ++ c) ∧
    (get_service_url c8_auth_routes "/auth/login".data).map
      (fun r => outbound_url r.1 r.2 []) = some "http://auth:8000/login".data ∧
    (get_service_url c8_task_routes "/api/v1/tasks/5".data).map
      (fun r => outbound_url r.1 r.2 "x=1".data) =
        some "http://tasks:8000/5?x=1".data := by
  refine ⟨?_, ?_, by decide, by decide⟩
  · intro u c q hq
    rw [outbound_url, if_neg hq]
  · intro u c
    rw [outbound_url, if_pos rfl, List.append_nil]

/-- C8 witness: the query clause at a concrete input. -/
theorem C8_outbound_url_shape_witness :
    outbound_url "http://tasks:8000".data "/5".data "x=1".data =
      rstrip_slash "http://tasks:8000".data ++ "/5".data ++ '?' :: "x=1".data :=
  C8_outbound_url_shape.1 "http://tasks:8000".data "/5".data "x=1".data (by decide)

/-- C9: health aggregation never fails as a whole: every route gets a
record, a 200 probe is healthy, any other status or an exception is
unhealthy (the exception message captured as the error field), and the
overall status is "degraded" exactly when some entry is not healthy,
otherwise "healthy". -/
theorem C9_health_aggregation (routes : List (Str × RouteConfig))
    (outcomes : Str → HealthOutcome) :
    ((health_check routes outcomes).overall_status = "degraded".data ↔
      ∃ p ∈ (health_check routes outcomes).downstream_services,
        p.2.status ≠ "healthy".data) ∧
    ((health_check routes outcomes).overall_status = "degraded".data ∨
      (health_check routes outcomes).overall_status = "healthy".data) ∧
    ((health_check routes outcomes).downstream_services =
      routes.map (fun e => (e.1, health_check_service e.2.url (outcomes e.1)))) ∧
    (∀ u e, (health_check_service u (HealthOutcome.response 200 e)).status =
      "healthy".data) ∧
    (∀ u c e, c ≠ 200 →
      (health_check_service u (HealthOutcome.response c e)).status =
        "unhealthy".data) ∧
    (∀ u m, (health_check_service u (HealthOutcome.exception m)).status =
      "unhealthy".data ∧
      (health_check_service u (HealthOutcome.exception m)).error = some m) := by
  have hov : (health_check routes outcomes).overall_status =
      if routes.any
          (fun e => (health_check_service e.2.url (outcomes e.1)).status != "healthy".data)
      then "degraded".data else "healthy".data :=
    health_fold_overall outcomes routes ⟨[], "healthy".data⟩
  have hds : (health_check routes outcomes).downstream_services =
      routes.map (fun e => (e.1, health_check_service e.2.url (outcomes e.1))) := by
    have h := health_fold_services outcomes routes ⟨[], "healthy".data⟩
    simpa using h
  refine ⟨?_, ?_, hds, ?_, ?_, ?_⟩
  · rw [hov, hds]
    cases hA : routes.any
        (fun e => (health_check_service e.2.url (outcomes e.1)).status != "healthy".data) with
    | false =>
      rw [if_neg (by decide)]
      constructor
      · intro hdeg
        exact absurd hdeg (by decide)
      · rintro ⟨p, hp, hne⟩
        exfalso
        rw [List.any_eq_false] at hA
        obtain ⟨e, he, hpe⟩ := List.mem_map.mp hp
        have hhealthy := hA e he
        rw [bne_iff_ne, not_ne_iff] at hhealthy
        apply hne
        rw [← hpe]
        exact hhealthy
    | true =>
      rw [if_pos rfl]
      constructor
      · intro _
        obtain ⟨e, he, hf⟩ := List.any_eq_true.mp hA
        refine ⟨(e.1, health_check_service e.2.url (outcomes e.1)),
          List.mem_map.mpr ⟨e, he, rfl⟩, ?_⟩
        exact bne_iff_ne.mp hf
      · intro _
        rfl
  · rw [hov]
    cases hA : routes.any
        (fun e => (health_check_service e.2.url (outcomes e.1)).status != "healthy".data) with
    | false =>
      right
      rw [if_neg (by decide)]
    | true =>
      left
      rw [if_pos rfl]
  · intro u e
    rfl
  · intro u c e hc
    simp [health_check_service, hc]
  · intro u m
    exact ⟨rfl, rfl⟩

/-- C9 witness: with the task probe raising a connection error and the
others answering 200, the overall status is degraded, and a 503 probe is
unhealthy. -/
theorem C9_health_aggregation_witness :
    (health_check service_routes c9_outcomes).overall_status = "degraded".data ∧
    (health_check_service "http://auth_service:8000".data
      (HealthOutcome.response 503 [])).status = "unhealthy".data := by
  constructor
  · exact ((C9_health_aggregation service_routes c9_outcomes).1).mpr (by decide)
  · exact (C9_health_aggregation service_routes c9_outcomes).2.2.2.2.1
      "http://auth_service:8000".data 503 [] (by decide)

/-- C10: route matching is raw string prefix matching, not path-segment
aware: a single-route table with prefix pre matches pre ++ suf for every
suffix (also one that continues mid-segment), prepending '/' to a
remainder that lacks one; concretely /authenticate matches the /auth route
of the configured table and is forwarded with downstream path /enticate. -/
theorem C10_mid_segment_match (nm url pre suf desc : Str)
    (hns : startswith suf "/".data = false) :
    get_service_url [(nm, ⟨url, pre, desc⟩)] (pre ++ suf) =
      some (url, '/' :: suf) ∧
    get_service_url service_routes "/authenticate".data =
      some ("http://auth_service:8000".data, "/enticate".data) := by
  constructor
  · have hstart : startswith (pre ++ suf) pre = true := by
      rw [startswith]
      exact List.isPrefixOf_iff_prefix.mpr (List.prefix_append pre suf)
    simp only [get_service_url]
    rw [if_pos hstart, List.drop_left, if_neg (by simp [hns])]
  · decide

/-- C10 witness: the general clause at the concrete mid-segment input. -/
theorem C10_mid_segment_match_witness :
    get_service_url [("auth".data, ⟨"http://auth:8000".data, "/auth".data, []⟩)]
      ("/auth".data ++ "enticate".data) =
      some ("http://auth:8000".data, '/' :: "enticate".data) :=
  (C10_mid_segment_match "auth".data "http://auth:8000".data "/auth".data
    "enticate".data [] (by decide)).1

